import Mathlib

/-!
# cxxsignal: handler registration and dispatch

A shallow embedding of `src/src/SignalHandler.cpp`, `src/src/Ignore_Default.cpp`
and the headers under `src/include/cxxsignal/`.

* A handler object is identified by its address (a `Nat`); the heap maps an
  address to the object living there, if any.
* `sig_map.map` is a list of optional addresses (`nullptr` is `none`).
* The kernel is its disposition table plus a log of the `sigaction` calls made.
  Whether a call fails is an input of the operation that makes it: every
  operation below makes at most one such call.
* Anything the C++ standard leaves undefined (indexing the vector outside its
  bounds, calling through a null or dangling pointer) is the outcome `fault`.
-/

namespace cxxsignal

/-! ## Platform constants (from `<csignal>`) -/

/-- Constants of `<csignal>` used by the library. -/
structure Platform where
  SIGRTMAX : Int
  SA_SIGINFO : Nat
  SA_RESTART : Nat
  deriving DecidableEq, Repr

/-! ## Action descriptors -/

/-- Value of the `sa_handler` / `sa_sigaction` union of a `struct sigaction`. -/
inductive Entry where
  /-- `SIG_DFL`, the all-zero value -/
  | SIG_DFL
  /-- `SIG_IGN` -/
  | SIG_IGN
  /-- the static function `signal_handler` of `SignalHandler.cpp` -/
  | signal_handler
  /-- any other function, installed by code outside the library -/
  | function (addr : Nat)
  deriving DecidableEq, Repr

/-- Model of `struct sigaction`. -/
structure sigaction_t where
  sa_handler : Entry
  sa_flags : Nat
  sa_mask : Finset Int
  deriving DecidableEq

/-- Result of `memset(&a, 0, sizeof(a))` and of value-initialisation `{}`. -/
def sigaction_zero : sigaction_t :=
  { sa_handler := Entry.SIG_DFL, sa_flags := 0, sa_mask := ∅ }

/-! ## Handler objects -/

/-- Data members of `class SignalHandler`. -/
structure SignalHandler where
  current_signal_action : sigaction_t
  old_signal_action : sigaction_t
  SIGNUM : Int
  sigset_changed : Bool
  revoke_on_destruction : Bool
  deriving DecidableEq

/-! ## Kernel -/

/-- Kernel side: the disposition of every signal and the `sigaction` calls made so far. -/
structure Kernel where
  disposition : Int → sigaction_t
  calls : List (Int × sigaction_t)

/-- Model of `sigaction(signum, &act, oldact)`. `errno = none`: the call succeeds, the old
disposition is handed back and `act` is installed. `errno = some e`: the call returns `-1`
with `errno = e`, installs nothing and writes nothing to `oldact`. -/
def sigaction (errno : Option Nat) (signum : Int) (act : sigaction_t) (k : Kernel) :
    Int × Option sigaction_t × Kernel :=
  match errno with
  | none =>
    (0, some (k.disposition signum),
      { disposition := fun s => if s = signum then act else k.disposition s,
        calls := k.calls ++ [(signum, act)] })
  | some _ =>
    (-1, none, { disposition := k.disposition, calls := k.calls ++ [(signum, act)] })

/-! ## Process state -/

/-- Whole state the library works on. -/
structure World where
  /-- `sig_map.map` -/
  sig_map : List (Option Nat)
  /-- live handler objects by address -/
  objects : Nat → Option SignalHandler
  kernel : Kernel

/-- Exceptions thrown by the library. -/
inductive Error where
  /-- `std::runtime_error("invalid signal number")` -/
  | runtime_error
  /-- `std::system_error(errno, ...)` -/
  | system_error (errno : Nat)
  deriving DecidableEq, Repr

/-- How a member function ends. -/
inductive Outcome where
  /-- normal return -/
  | ok (w : World)
  /-- an exception leaves the function; `w` is the state it leaves behind -/
  | throw (e : Error) (w : World)
  /-- undefined behaviour -/
  | fault

/-- Model of `static_cast<std::size_t>(n)` for an `int` on a 64-bit platform. -/
def size_t_cast (n : Int) : Nat := (n % 2 ^ 64).toNat

/-- Heap update: the object at address `a` becomes `h`. -/
def World.store (w : World) (a : Nat) (h : SignalHandler) : Nat → Option SignalHandler :=
  fun b => if b = a then some h else w.objects b

/-! ## `SignalHandler::establish`, `revoke`, `is_established` -/

/-- Model of `SignalHandler::establish` called on the object at address `this`;
`errno` is the kernel's answer to the `sigaction` call, if one is made. -/
def establish (errno : Option Nat) (this : Nat) (w : World) : Outcome :=
  match w.objects this with
  | none => Outcome.fault
  | some self =>
    let i := size_t_cast self.SIGNUM
    match w.sig_map[i]? with
    | none => Outcome.fault
    | some (some sigmap_entry) =>
      if sigmap_entry = this then
        if self.sigset_changed then
          match sigaction errno self.SIGNUM self.current_signal_action w.kernel with
          | (tmp, _, k) =>
            if tmp ≠ 0 then Outcome.throw (Error.system_error (errno.getD 0)) { w with kernel := k }
            else Outcome.ok { w with kernel := k }
        else Outcome.ok w
      else
        match w.objects sigmap_entry with
        | none => Outcome.fault
        | some other =>
          let tmp_action := other.old_signal_action
          match sigaction errno self.SIGNUM self.current_signal_action w.kernel with
          | (tmp, _, k) =>
            if tmp ≠ 0 then Outcome.throw (Error.system_error (errno.getD 0)) { w with kernel := k }
            else
              Outcome.ok
                { sig_map := w.sig_map.set i (some this),
                  objects := w.store this { self with old_signal_action := tmp_action },
                  kernel := k }
    | some none =>
      let sig_map1 := w.sig_map.set i (some this)
      match sigaction errno self.SIGNUM self.current_signal_action w.kernel with
      | (tmp, oldact, k) =>
        let objects1 :=
          match oldact with
          | some old => w.store this { self with old_signal_action := old }
          | none => w.objects
        if tmp ≠ 0 then
          Outcome.throw (Error.system_error (errno.getD 0))
            { sig_map := sig_map1, objects := objects1, kernel := k }
        else Outcome.ok { sig_map := sig_map1, objects := objects1, kernel := k }

/-- Model of `SignalHandler::revoke`. -/
def revoke (errno : Option Nat) (this : Nat) (w : World) : Outcome :=
  match w.objects this with
  | none => Outcome.fault
  | some self =>
    let i := size_t_cast self.SIGNUM
    match w.sig_map[i]? with
    | none => Outcome.fault
    | some sigmap_entry =>
      if sigmap_entry ≠ some this then Outcome.ok w
      else
        match sigaction errno self.SIGNUM self.old_signal_action w.kernel with
        | (tmp, _, k) =>
          if tmp ≠ 0 then Outcome.throw (Error.system_error (errno.getD 0)) { w with kernel := k }
          else Outcome.ok { sig_map := w.sig_map.set i none, objects := w.objects, kernel := k }

/-- Model of `SignalHandler::is_established`; `none` is undefined behaviour. -/
def is_established (this : Nat) (w : World) : Option Bool :=
  match w.objects this with
  | none => none
  | some self =>
    match w.sig_map[size_t_cast self.SIGNUM]? with
    | none => none
    | some sigmap_entry => some (decide (sigmap_entry = some this))

/-! ## Blocked-signal mask -/

/-- Model of `sigaddset(&set, signo)`; `errno = some e` is the C library refusing the call. -/
def sigaddset (errno : Option Nat) (set : Finset Int) (signo : Int) : Int × Finset Int :=
  match errno with
  | none => (0, insert signo set)
  | some _ => (-1, set)

/-- Model of `sigdelset(&set, signo)`. -/
def sigdelset (errno : Option Nat) (set : Finset Int) (signo : Int) : Int × Finset Int :=
  match errno with
  | none => (0, set.erase signo)
  | some _ => (-1, set)

/-- Model of `SignalHandler::block_signal`; `errno` is the answer of `sigaddset`. -/
def block_signal (p : Platform) (errno : Option Nat) (signal_number : Int) (this : Nat)
    (w : World) : Outcome :=
  match w.objects this with
  | none => Outcome.fault
  | some self =>
    if signal_number > p.SIGRTMAX ∨ signal_number ≤ 0 then Outcome.throw Error.runtime_error w
    else
      match sigaddset errno self.current_signal_action.sa_mask signal_number with
      | (tmp, mask) =>
        let w1 : World :=
          { w with
            objects :=
              w.store this
                { self with
                  current_signal_action := { self.current_signal_action with sa_mask := mask } } }
        if tmp = -1 then Outcome.throw (Error.system_error (errno.getD 0)) w1 else Outcome.ok w1

/-- Model of `SignalHandler::unblock_signal`; `errno` is the answer of `sigdelset`. -/
def unblock_signal (p : Platform) (errno : Option Nat) (signal_number : Int) (this : Nat)
    (w : World) : Outcome :=
  match w.objects this with
  | none => Outcome.fault
  | some self =>
    if signal_number > p.SIGRTMAX ∨ signal_number ≤ 0 then Outcome.throw Error.runtime_error w
    else
      match sigdelset errno self.current_signal_action.sa_mask signal_number with
      | (tmp, mask) =>
        let w1 : World :=
          { w with
            objects :=
              w.store this
                { self with
                  current_signal_action := { self.current_signal_action with sa_mask := mask } } }
        if tmp = -1 then Outcome.throw (Error.system_error (errno.getD 0)) w1 else Outcome.ok w1

/-! ## Construction -/

set_option linter.dupNamespace false in
/-- Model of the constructor `SignalHandler::SignalHandler(signal_number, restart)`: the
data members of the new object, or the exception thrown. `errno` is the answer of
`sigemptyset`. -/
def SignalHandler.SignalHandler (p : Platform) (errno : Option Nat) (signal_number : Int)
    (restart : Bool) : Except Error SignalHandler :=
  if signal_number > p.SIGRTMAX ∨ signal_number ≤ 0 then Except.error Error.runtime_error
  else
    let sa_flags := if restart then p.SA_SIGINFO ||| p.SA_RESTART else p.SA_SIGINFO
    match errno with
    | some e => Except.error (Error.system_error e)
    | none =>
      Except.ok
        { current_signal_action :=
            { sa_handler := Entry.signal_handler, sa_flags := sa_flags, sa_mask := ∅ },
          old_signal_action := sigaction_zero,
          SIGNUM := signal_number,
          sigset_changed := false,
          revoke_on_destruction := true }

/-- Model of `static struct Actions` of `Ignore_Default.cpp`. -/
structure Actions where
  _ignore : sigaction_t
  _default : sigaction_t

/-- The object `actions` as its constructor leaves it. -/
def actions : Actions :=
  { _ignore := { sigaction_zero with sa_handler := Entry.SIG_IGN },
    _default := { sigaction_zero with sa_handler := Entry.SIG_DFL } }

/-- Model of the constructor `Ignore::Ignore(signal_number)`. -/
def Ignore (p : Platform) (errno : Option Nat) (signal_number : Int) :
    Except Error SignalHandler :=
  match SignalHandler.SignalHandler p errno signal_number true with
  | Except.error e => Except.error e
  | Except.ok h => Except.ok { h with current_signal_action := actions._ignore }

/-- Model of the constructor `Default::Default(signal_number)`. -/
def Default (p : Platform) (errno : Option Nat) (signal_number : Int) :
    Except Error SignalHandler :=
  match SignalHandler.SignalHandler p errno signal_number true with
  | Except.error e => Except.error e
  | Except.ok h => Except.ok { h with current_signal_action := actions._default }

/-- Model of `SignalHandler::no_revoke`. -/
def no_revoke (no_revoke : Bool) (this : Nat) (w : World) : Outcome :=
  match w.objects this with
  | none => Outcome.fault
  | some self =>
    Outcome.ok { w with objects := w.store this { self with revoke_on_destruction := !no_revoke } }

/-! ## Signal delivery -/

/-- What a delivered signal makes run. -/
inductive Event where
  /-- the virtual `handler` of the object at `this` is called with `signal_number` -/
  | handler (this : Nat) (signal_number : Int)
  /-- a function installed outside the library is called -/
  | function (addr : Nat) (signal_number : Int)
  /-- the kernel performs the default action of the signal -/
  | default_action (signal_number : Int)
  deriving DecidableEq, Repr

/-- Model of the static function `signal_handler`: the calls it makes, `none` for undefined
behaviour. Handler bodies are user code; they are taken not to change the registry. -/
def signal_handler (signal_number : Int) (w : World) : Option (List Event) :=
  match w.sig_map[size_t_cast signal_number]? with
  | none => none
  | some none => none
  | some (some handler) =>
    match w.objects handler with
    | none => none
    | some _ => some [Event.handler handler signal_number]

/-- One delivery of `signum` by the kernel, as `raise(signum)` in `test.cpp` causes it:
the installed disposition decides what runs. -/
def deliver (signum : Int) (w : World) : Option (List Event) :=
  match (w.kernel.disposition signum).sa_handler with
  | Entry.SIG_DFL => some [Event.default_action signum]
  | Entry.SIG_IGN => some []
  | Entry.signal_handler => signal_handler signum w
  | Entry.function addr => some [Event.function addr signum]

/-- The calls made by `n` deliveries of `signum` in a row. -/
def deliveries (n : Nat) (signum : Int) (w : World) : Option (List Event) :=
  match n with
  | 0 => some []
  | n + 1 =>
    match deliver signum w, deliveries n signum w with
    | some first, some rest => some (first ++ rest)
    | _, _ => none

/-! ## Sequences of calls -/

/-- Calls `establish` on each handler of `chain` in turn, each kernel call succeeding;
`none` as soon as one of the calls does not return normally. -/
def establish_chain (w : World) : List Nat → Option World
  | [] => some w
  | this :: rest =>
    match establish none this w with
    | Outcome.ok w1 => establish_chain w1 rest
    | _ => none

/-- The state a call leaves behind, if it has one. -/
def Outcome.state : Outcome → Option World
  | Outcome.ok w => some w
  | Outcome.throw _ w => some w
  | Outcome.fault => none

/-- The exception a call ends with, if any. -/
def Outcome.exception : Outcome → Option Error
  | Outcome.throw e _ => some e
  | _ => none

/-- Whether a call returns normally. -/
def Outcome.returns : Outcome → Bool
  | Outcome.ok _ => true
  | _ => false

/-- The exception (if any), the registry and the kernel side that a call leaves behind. -/
def Outcome.effect : Outcome → Option (Option Error × List (Option Nat) × Kernel)
  | Outcome.ok w => some (none, w.sig_map, w.kernel)
  | Outcome.throw e w => some (some e, w.sig_map, w.kernel)
  | Outcome.fault => none

/-- The values of the C type `int`. -/
def is_int (n : Int) : Prop := -2147483648 ≤ n ∧ n ≤ 2147483647

/-- The parts of the state outside signal `S` and handler `H` are the same in `w` and
`w1`. -/
def SameElsewhere (S : Int) (H : Nat) (w w1 : World) : Prop :=
  (∀ i, i ≠ size_t_cast S → w1.sig_map[i]? = w.sig_map[i]?) ∧
    (∀ T, T ≠ S → w1.kernel.disposition T = w.kernel.disposition T) ∧
    (∀ G, G ≠ H → w1.objects G = w.objects G)

/-! ## Destruction and the registry object -/

/-- Heap after the object at address `a` is gone. -/
def World.free (w : World) (a : Nat) : Nat → Option SignalHandler :=
  fun b => if b = a then none else w.objects b

/-- Model of `SignalHandler::~SignalHandler`: `if (revoke_on_destruction) revoke();`, after
which the object is gone. `Outcome.throw`: the exception thrown by `revoke()` leaves the
body of the destructor; the destructor is not declared `noexcept(false)`, so this is a call
of `std::terminate`. -/
def destructor (errno : Option Nat) (this : Nat) (w : World) : Outcome :=
  match w.objects this with
  | none => Outcome.fault
  | some self =>
    if self.revoke_on_destruction then
      match revoke errno this w with
      | Outcome.ok w1 => Outcome.ok { w1 with objects := w1.free this }
      | Outcome.throw e w1 => Outcome.throw e w1
      | Outcome.fault => Outcome.fault
    else Outcome.ok { w with objects := w.free this }

/-- Model of the constructor `SignalMapper::SignalMapper`: the initial `sig_map.map`, a
vector of `SIGRTMAX` null pointers. -/
def SignalMapper (p : Platform) : List (Option Nat) :=
  List.replicate (size_t_cast p.SIGRTMAX) none

/-! ## Waiting for the signal -/

/-- Model of `struct timespec`. -/
structure timespec where
  tv_sec : Int
  tv_nsec : Int
  deriving DecidableEq, Repr

/-- What the operating system answers while `wait` runs. -/
structure Waiting where
  /-- error of the call that adds the signal to the blocked-signal mask of the thread -/
  block : Option Nat
  /-- error of the call that consumes the signal, other than the timeout running out -/
  consume : Option Nat
  /-- an instance of the signal is delivered (within the timeout, if there is one) -/
  arrives : Bool
  /-- error of the call that restores the blocked-signal mask of the thread -/
  restore : Option Nat
  deriving DecidableEq, Repr

/-- How a call of `wait` ends. -/
inductive Waited where
  /-- normal return with the calls of `handler` made meanwhile -/
  | returns (result : Bool) (calls : List Event)
  /-- an exception leaves the function -/
  | throw (e : Error)
  /-- the call never returns -/
  | blocks
  /-- undefined behaviour -/
  | fault
  deriving DecidableEq, Repr

/-- Modelled from the spec: the body of `SignalHandler::wait`, which the header declares but
no source file defines. Following section 4.4: the signal is added to the blocked-signal
mask of the calling thread, one pending instance is consumed (with the timeout if it is not
zero, without limit if it is zero), the mask is restored; if the signal arrived and this
object is established, `handler` is called; the result is true if the signal was consumed
and false if the timeout elapsed. A failing mask or wait call is a system error. -/
def wait (timeout : timespec) (os : Waiting) (this : Nat) (w : World) : Waited :=
  match w.objects this with
  | none => Waited.fault
  | some self =>
    match os.block with
    | some e => Waited.throw (Error.system_error e)
    | none =>
      match os.consume with
      | some e => Waited.throw (Error.system_error e)
      | none =>
        if os.arrives then
          match os.restore with
          | some e => Waited.throw (Error.system_error e)
          | none =>
            match is_established this w with
            | none => Waited.fault
            | some true => Waited.returns true [Event.handler this self.SIGNUM]
            | some false => Waited.returns true []
        else if timeout = { tv_sec := 0, tv_nsec := 0 } then Waited.blocks
        else
          match os.restore with
          | some e => Waited.throw (Error.system_error e)
          | none => Waited.returns false []

/-! ## Predicates used in the statements -/

/-- The slot of signal `S` references the live handler `cur`, a handler for `S` whose saved
previous action is `D`. -/
def HeldWith (S : Int) (D : sigaction_t) (cur : Nat) (w : World) : Prop :=
  w.sig_map[size_t_cast S]? = some (some cur) ∧
    ∃ o, w.objects cur = some o ∧ o.SIGNUM = S ∧ o.old_signal_action = D

/-- Every handler of `chain` is a live handler for signal `S`. -/
def HandlersFor (S : Int) (chain : List Nat) (w : World) : Prop :=
  ∀ x ∈ chain, ∃ o, w.objects x = some o ∧ o.SIGNUM = S

/-- The handler data `h` with the blocked-signal set of its current action replaced. -/
def with_mask (h : SignalHandler) (mask : Finset Int) : SignalHandler :=
  { h with current_signal_action := { h.current_signal_action with sa_mask := mask } }

/-- The call `r` on handler `H` (whose data members were `h`) ended with a state that
differs from `w` at most in the blocked-signal set of the current action of `H`. -/
def OnlyMaskChanged (H : Nat) (h : SignalHandler) (w : World) (r : Outcome) : Prop :=
  ∃ w1 mask, r.state = some w1 ∧ w1.sig_map = w.sig_map ∧
    w1.kernel.disposition = w.kernel.disposition ∧ w1.kernel.calls = w.kernel.calls ∧
    w1.objects = w.store H (with_mask h mask)

/-! ## Concrete states used by the instances below -/

/-- A Linux-like platform: `SIGRTMAX = 64`, `SA_SIGINFO = 4`, `SA_RESTART = 0x10000000`. -/
def linux : Platform := { SIGRTMAX := 64, SA_SIGINFO := 4, SA_RESTART := 268435456 }

/-- A custom handler for `signal_number` as the constructor leaves it. -/
def fresh (signal_number : Int) : SignalHandler :=
  { current_signal_action :=
      { sa_handler := Entry.signal_handler, sa_flags := 4 ||| 268435456, sa_mask := ∅ },
    old_signal_action := sigaction_zero,
    SIGNUM := signal_number,
    sigset_changed := false,
    revoke_on_destruction := true }

/-- An `Ignore` handler for `signal_number` as its constructor leaves it. -/
def fresh_ignore (signal_number : Int) : SignalHandler :=
  { fresh signal_number with current_signal_action := actions._ignore }

/-- Disposition installed by the application itself before the library is used. -/
def foreign_action : sigaction_t :=
  { sa_handler := Entry.function 7, sa_flags := 0, sa_mask := ∅ }

/-- Process start: empty registry of length 64, signal 10 handled by a function of the
application, three handler objects for signal 10 at addresses 1, 2 and 3 (the third an
`Ignore`), one for signal 9 at address 4 and one for signal 12 at address 5. -/
def start : World :=
  { sig_map := List.replicate 64 none,
    objects := fun a =>
      if a = 1 then some (fresh 10)
      else if a = 2 then some (fresh 10)
      else if a = 3 then some (fresh_ignore 10)
      else if a = 4 then some (fresh 9)
      else if a = 5 then some (fresh 12)
      else none,
    kernel :=
      { disposition := fun s => if s = 10 then foreign_action else sigaction_zero,
        calls := [] } }

/-- The state `start` after the handler at address 1 was established. -/
def started : World :=
  { sig_map := start.sig_map.set 10 (some 1),
    objects := start.store 1 { fresh 10 with old_signal_action := foreign_action },
    kernel := (sigaction none 10 (fresh 10).current_signal_action start.kernel).2.2 }

/-- The state `started` after the handler at address 1 revoked again. -/
def restarted : World :=
  { sig_map := started.sig_map.set 10 none,
    objects := started.objects,
    kernel := (sigaction none 10 foreign_action started.kernel).2.2 }

/-- The state `start` after handlers 1, 2 and 3 established in turn. -/
def chained : World := (establish_chain start [1, 2, 3]).getD start

/-- The state `chained` after handler 3 revoked. -/
def unchained : World := (revoke none 3 chained).state.getD start

/-- The state `started` after the `Ignore` handler at address 3 was established. -/
def ignoring : World := (establish none 3 started).state.getD start

/-- The state `started` after `block_signal(12)` on the established handler 1. -/
def blocked : World := (block_signal linux none 12 1 started).state.getD start

/-- The state `blocked` after handler 1 called `establish()` again. -/
def reestablished : World := (establish none 1 blocked).state.getD start

/-- The state `start` after `block_signal(12)` on handler 1 and its first `establish()`. -/
def started_blocking : World :=
  ((block_signal linux none 12 1 start).state.bind
    (fun w => (establish none 1 w).state)).getD start

/-- The state `started_blocking` after `unblock_signal(12)` on handler 1 and `establish()`
again. -/
def reestablished_unblocked : World :=
  ((unblock_signal linux none 12 1 started_blocking).state.bind
    (fun w => (establish none 1 w).state)).getD start

/-- The state `start` after the `establish()` of handler 4 (signal 9) that the kernel
refused with error 22. -/
def refused : World := (establish (some 22) 4 start).state.getD start

/-- The state `start` with a handler for signal 64 at address 6. -/
def start_rtmax : World :=
  { start with objects := start.store 6 (fresh 64) }

/-- The state `restarted` after the application installed the trampoline action again, as
it does when it puts back a disposition it had read while handler 1 was established. -/
def stale : World :=
  { restarted with
    kernel := (sigaction none 10 (fresh 10).current_signal_action restarted.kernel).2.2 }

/-- The state `started` after handler 5 (signal 12) was established as well. -/
def started_both : World := (establish none 5 started).state.getD start

/-- The state `started_both` after handler 1 (signal 10) revoked. -/
def kept : World := (revoke none 1 started_both).state.getD start

/-! # Lemmas -/

/-! ## Path lemmas for `establish` and `revoke` -/

theorem establish_empty {w : World} {this : Nat} {self : SignalHandler} (errno : Option Nat)
    (hobj : w.objects this = some self)
    (hslot : w.sig_map[size_t_cast self.SIGNUM]? = some none) :
    establish errno this w =
      match errno with
      | none =>
        Outcome.ok
          { sig_map := w.sig_map.set (size_t_cast self.SIGNUM) (some this),
            objects :=
              w.store this { self with old_signal_action := w.kernel.disposition self.SIGNUM },
            kernel := (sigaction none self.SIGNUM self.current_signal_action w.kernel).2.2 }
      | some e =>
        Outcome.throw (Error.system_error e)
          { sig_map := w.sig_map.set (size_t_cast self.SIGNUM) (some this),
            objects := w.objects,
            kernel := (sigaction (some e) self.SIGNUM self.current_signal_action w.kernel).2.2 } := by
  cases errno <;> simp [establish, hobj, hslot, sigaction]

theorem establish_other {w : World} {this entry : Nat} {self other : SignalHandler}
    (errno : Option Nat) (hobj : w.objects this = some self)
    (hslot : w.sig_map[size_t_cast self.SIGNUM]? = some (some entry)) (hne : entry ≠ this)
    (hother : w.objects entry = some other) :
    establish errno this w =
      match errno with
      | none =>
        Outcome.ok
          { sig_map := w.sig_map.set (size_t_cast self.SIGNUM) (some this),
            objects := w.store this { self with old_signal_action := other.old_signal_action },
            kernel := (sigaction none self.SIGNUM self.current_signal_action w.kernel).2.2 }
      | some e =>
        Outcome.throw (Error.system_error e)
          { w with
            kernel := (sigaction (some e) self.SIGNUM self.current_signal_action w.kernel).2.2 } := by
  cases errno <;> simp [establish, hobj, hslot, hne, hother, sigaction]

theorem establish_other_dangling {w : World} {this entry : Nat} {self : SignalHandler}
    (errno : Option Nat) (hobj : w.objects this = some self)
    (hslot : w.sig_map[size_t_cast self.SIGNUM]? = some (some entry)) (hne : entry ≠ this)
    (hother : w.objects entry = none) :
    establish errno this w = Outcome.fault := by
  simp [establish, hobj, hslot, hne, hother]

theorem establish_self {w : World} {this : Nat} {self : SignalHandler} (errno : Option Nat)
    (hobj : w.objects this = some self)
    (hslot : w.sig_map[size_t_cast self.SIGNUM]? = some (some this)) :
    establish errno this w =
      if self.sigset_changed then
        match errno with
        | none =>
          Outcome.ok
            { w with
              kernel := (sigaction none self.SIGNUM self.current_signal_action w.kernel).2.2 }
        | some e =>
          Outcome.throw (Error.system_error e)
            { w with
              kernel :=
                (sigaction (some e) self.SIGNUM self.current_signal_action w.kernel).2.2 }
      else Outcome.ok w := by
  cases errno <;> by_cases hc : self.sigset_changed <;>
    simp [establish, hobj, hslot, hc, sigaction]

theorem revoke_not_current {w : World} {this : Nat} {self : SignalHandler} {entry : Option Nat}
    (errno : Option Nat) (hobj : w.objects this = some self)
    (hslot : w.sig_map[size_t_cast self.SIGNUM]? = some entry) (hne : entry ≠ some this) :
    revoke errno this w = Outcome.ok w := by
  simp [revoke, hobj, hslot, hne]

theorem revoke_current {w : World} {this : Nat} {self : SignalHandler} (errno : Option Nat)
    (hobj : w.objects this = some self)
    (hslot : w.sig_map[size_t_cast self.SIGNUM]? = some (some this)) :
    revoke errno this w =
      match errno with
      | none =>
        Outcome.ok
          { sig_map := w.sig_map.set (size_t_cast self.SIGNUM) none,
            objects := w.objects,
            kernel := (sigaction none self.SIGNUM self.old_signal_action w.kernel).2.2 }
      | some e =>
        Outcome.throw (Error.system_error e)
          { w with
            kernel := (sigaction (some e) self.SIGNUM self.old_signal_action w.kernel).2.2 } := by
  cases errno <;> simp [revoke, hobj, hslot, sigaction]

theorem is_established_eq {w : World} {this : Nat} {self : SignalHandler} {entry : Option Nat}
    (hobj : w.objects this = some self)
    (hslot : w.sig_map[size_t_cast self.SIGNUM]? = some entry) :
    is_established this w = some (decide (entry = some this)) := by
  simp [is_established, hobj, hslot]

theorem is_established_true {w : World} {this : Nat} {self : SignalHandler}
    (hobj : w.objects this = some self) (h : is_established this w = some true) :
    w.sig_map[size_t_cast self.SIGNUM]? = some (some this) := by
  unfold is_established at h
  rw [hobj] at h
  cases hs : w.sig_map[size_t_cast self.SIGNUM]? with
  | none => simp [hs] at h
  | some entry => simpa [hs] using h

theorem is_established_false {w : World} {this : Nat} {self : SignalHandler}
    (hobj : w.objects this = some self) (h : is_established this w = some false) :
    ∃ entry, w.sig_map[size_t_cast self.SIGNUM]? = some entry ∧ entry ≠ some this := by
  unfold is_established at h
  rw [hobj] at h
  cases hs : w.sig_map[size_t_cast self.SIGNUM]? with
  | none => simp [hs] at h
  | some entry => exact ⟨entry, rfl, by simpa [hs] using h⟩

theorem set_slot {l : List (Option Nat)} {i : Nat} {old : Option Nat} (new : Option Nat)
    (h : l[i]? = some old) : (l.set i new)[i]? = some new := by
  have hi : i < l.length := by
    rcases List.getElem?_eq_some.mp h with ⟨hi, _⟩
    exact hi
  simp [List.getElem?_set, hi]

theorem set_slot_back {l : List (Option Nat)} {i : Nat} {old : Option Nat} (new : Option Nat)
    (h : l[i]? = some old) : (l.set i new).set i old = l := by
  apply List.ext_getElem?
  intro j
  by_cases hij : i = j
  · subst hij
    rw [set_slot old (set_slot new h), h]
  · simp [List.getElem?_set, hij]

theorem is_established_live {w : World} {this : Nat} {b : Bool}
    (h : is_established this w = some b) : ∃ self, w.objects this = some self := by
  cases hobj : w.objects this with
  | none => simp [is_established, hobj] at h
  | some self => exact ⟨self, rfl⟩

theorem signal_handler_null {w : World} {signal_number : Int}
    (h : w.sig_map[size_t_cast signal_number]? = some none) :
    signal_handler signal_number w = none := by
  simp [signal_handler, h]

/-! ## Chains of establishing handlers -/

theorem establish_keeps_objects {errno : Option Nat} {this : Nat} {w w1 : World}
    (hrun : establish errno this w = Outcome.ok w1) (a : Nat) (o : SignalHandler)
    (ha : w.objects a = some o) :
    ∃ o1, w1.objects a = some o1 ∧ o1.SIGNUM = o.SIGNUM := by
  cases hobj : w.objects this with
  | none => simp [establish, hobj] at hrun
  | some self =>
    cases hslot : w.sig_map[size_t_cast self.SIGNUM]? with
    | none => simp [establish, hobj, hslot] at hrun
    | some entry =>
      cases entry with
      | none =>
        rw [establish_empty errno hobj hslot] at hrun
        cases errno with
        | some e => simp at hrun
        | none =>
          simp only [Outcome.ok.injEq] at hrun
          subst hrun
          by_cases hat : a = this
          · subst hat
            rw [hobj] at ha
            cases ha
            exact ⟨{ o with old_signal_action := w.kernel.disposition o.SIGNUM },
              by simp [World.store], rfl⟩
          · exact ⟨o, by simp [World.store, hat, ha], rfl⟩
      | some entry =>
        by_cases hne : entry = this
        · subst hne
          rw [establish_self errno hobj hslot] at hrun
          by_cases hc : self.sigset_changed
          · cases errno with
            | some e => simp [hc] at hrun
            | none =>
              simp only [hc, if_true, Outcome.ok.injEq] at hrun
              subst hrun
              exact ⟨o, ha, rfl⟩
          · simp only [hc, Bool.false_eq_true, if_false, Outcome.ok.injEq] at hrun
            subst hrun
            exact ⟨o, ha, rfl⟩
        · cases hother : w.objects entry with
          | none => simp [establish_other_dangling errno hobj hslot hne hother] at hrun
          | some other =>
            rw [establish_other errno hobj hslot hne hother] at hrun
            cases errno with
            | some e => simp at hrun
            | none =>
              simp only [Outcome.ok.injEq] at hrun
              subst hrun
              by_cases hat : a = this
              · subst hat
                rw [hobj] at ha
                cases ha
                exact ⟨{ o with old_signal_action := other.old_signal_action },
                  by simp [World.store], rfl⟩
              · exact ⟨o, by simp [World.store, hat, ha], rfl⟩

theorem establish_keeps_handlers {errno : Option Nat} {this : Nat} {w w1 : World} {S : Int}
    {chain : List Nat} (hrun : establish errno this w = Outcome.ok w1)
    (h : HandlersFor S chain w) : HandlersFor S chain w1 := by
  intro x hx
  obtain ⟨o, ho, hS⟩ := h x hx
  obtain ⟨o1, ho1, hS1⟩ := establish_keeps_objects hrun x o ho
  exact ⟨o1, ho1, hS1.trans hS⟩

theorem establish_first {errno : Option Nat} {this : Nat} {self : SignalHandler} {w w1 : World}
    (hobj : w.objects this = some self)
    (hempty : w.sig_map[size_t_cast self.SIGNUM]? = some none)
    (hrun : establish errno this w = Outcome.ok w1) :
    HeldWith self.SIGNUM (w.kernel.disposition self.SIGNUM) this w1 := by
  rw [establish_empty errno hobj hempty] at hrun
  cases errno with
  | some e => simp at hrun
  | none =>
    simp only [Outcome.ok.injEq] at hrun
    subst hrun
    exact ⟨set_slot (some this) hempty,
      { self with old_signal_action := w.kernel.disposition self.SIGNUM },
      by simp [World.store], rfl, rfl⟩

theorem establish_next {errno : Option Nat} {this cur : Nat} {self : SignalHandler}
    {D : sigaction_t} {w w1 : World} (hobj : w.objects this = some self)
    (hheld : HeldWith self.SIGNUM D cur w) (hrun : establish errno this w = Outcome.ok w1) :
    HeldWith self.SIGNUM D this w1 := by
  obtain ⟨hslot, o, ho, hoS, hoD⟩ := hheld
  by_cases hne : cur = this
  · subst hne
    rw [hobj] at ho
    cases ho
    rw [establish_self errno hobj hslot] at hrun
    by_cases hc : self.sigset_changed
    · cases errno with
      | some e => simp [hc] at hrun
      | none =>
        simp only [hc, if_true, Outcome.ok.injEq] at hrun
        subst hrun
        exact ⟨hslot, self, hobj, rfl, hoD⟩
    · simp only [hc, Bool.false_eq_true, if_false, Outcome.ok.injEq] at hrun
      subst hrun
      exact ⟨hslot, self, hobj, rfl, hoD⟩
  · rw [establish_other errno hobj hslot hne ho] at hrun
    cases errno with
    | some e => simp at hrun
    | none =>
      simp only [Outcome.ok.injEq] at hrun
      subst hrun
      exact ⟨set_slot (some this) hslot, { self with old_signal_action := o.old_signal_action },
        by simp [World.store], rfl, hoD⟩

theorem establish_chain_held (S : Int) (D : sigaction_t) (chain : List Nat) :
    ∀ (w w1 : World) (cur last : Nat), HeldWith S D cur w → HandlersFor S chain w →
      establish_chain w chain = some w1 → (cur :: chain).getLast? = some last →
      HeldWith S D last w1 := by
  induction chain with
  | nil =>
    intro w w1 cur last hheld _ hrun hlast
    simp only [establish_chain, Option.some.injEq] at hrun
    simp only [List.getLast?_singleton, Option.some.injEq] at hlast
    subst hrun
    subst hlast
    exact hheld
  | cons x rest ih =>
    intro w w1 cur last hheld hfor hrun hlast
    obtain ⟨o, ho, hoS⟩ := hfor x (List.mem_cons_self x rest)
    cases hstep : establish none x w with
    | ok w2 =>
      simp only [establish_chain, hstep] at hrun
      rw [List.getLast?_cons_cons] at hlast
      have hheld2 : HeldWith S D x w2 := by
        have := @establish_next none x cur o D w w2 ho (hoS ▸ hheld) hstep
        exact hoS ▸ this
      have hfor2 : HandlersFor S rest w2 :=
        establish_keeps_handlers hstep (fun y hy => hfor y (List.mem_cons_of_mem x hy))
      exact ih w2 w1 x last hheld2 hfor2 hrun hlast
    | throw e w2 => simp [establish_chain, hstep] at hrun
    | fault => simp [establish_chain, hstep] at hrun

/-! ## What a superseding or first establish leaves behind -/

theorem establish_superseded {errno : Option Nat} {A B : Nat} {a b : SignalHandler}
    {w w1 : World} (hA : w.objects A = some a) (hB : w.objects B = some b)
    (hS : a.SIGNUM = b.SIGNUM) (hAB : A ≠ B) (hest : is_established A w = some true)
    (hrun : establish errno B w = Outcome.ok w1) :
    is_established A w1 = some false ∧ is_established B w1 = some true ∧
      w1.kernel.disposition b.SIGNUM = b.current_signal_action := by
  have hslot := is_established_true hA hest
  rw [hS] at hslot
  rw [establish_other errno hB hslot hAB hA] at hrun
  cases errno with
  | some e => simp at hrun
  | none =>
    simp only [Outcome.ok.injEq] at hrun
    subst hrun
    have hslot1 := set_slot (some B) hslot
    refine ⟨?_, ?_, ?_⟩
    · simp [is_established, World.store, hAB, hA, hS, hslot1, Ne.symm hAB]
    · simp [is_established, World.store, hslot1]
    · simp [sigaction]

theorem establish_installs {errno : Option Nat} {H : Nat} {h : SignalHandler} {w w1 : World}
    (hobj : w.objects H = some h) (hnot : is_established H w = some false)
    (hrun : establish errno H w = Outcome.ok w1) :
    w1.sig_map[size_t_cast h.SIGNUM]? = some (some H) ∧
      (∃ h1, w1.objects H = some h1) ∧
      w1.kernel.disposition h.SIGNUM = h.current_signal_action := by
  obtain ⟨entry, hslot, hentry⟩ := is_established_false hobj hnot
  cases entry with
  | none =>
    rw [establish_empty errno hobj hslot] at hrun
    cases errno with
    | some e => simp at hrun
    | none =>
      simp only [Outcome.ok.injEq] at hrun
      subst hrun
      exact ⟨set_slot (some H) hslot, ⟨_, if_pos rfl⟩, by simp [sigaction]⟩
  | some entry =>
    have hne : entry ≠ H := fun hc => hentry (by rw [hc])
    cases hother : w.objects entry with
    | none => simp [establish_other_dangling errno hobj hslot hne hother] at hrun
    | some other =>
      rw [establish_other errno hobj hslot hne hother] at hrun
      cases errno with
      | some e => simp at hrun
      | none =>
        simp only [Outcome.ok.injEq] at hrun
        subst hrun
        exact ⟨set_slot (some H) hslot, ⟨_, if_pos rfl⟩, by simp [sigaction]⟩

theorem deliveries_replicate {signum : Int} {w : World} {e : Event}
    (h : deliver signum w = some [e]) (n : Nat) :
    deliveries n signum w = some (List.replicate n e) := by
  induction n with
  | zero => simp [deliveries]
  | succ n ih => simp [deliveries, h, ih, List.replicate_succ]

theorem deliveries_nothing {signum : Int} {w : World} (h : deliver signum w = some [])
    (n : Nat) : deliveries n signum w = some [] := by
  induction n with
  | zero => simp [deliveries]
  | succ n ih => simp [deliveries, h, ih]

theorem store_same {w : World} {H : Nat} {h : SignalHandler} (hobj : w.objects H = some h) :
    w.objects = w.store H h := by
  funext a
  by_cases ha : a = H
  · subst ha
    simp [World.store, hobj]
  · simp [World.store, ha]

theorem establish_result {errno : Option Nat} {H : Nat} {h : SignalHandler} {w w1 : World}
    (hobj : w.objects H = some h) (hrun : establish errno H w = Outcome.ok w1) :
    w1.sig_map[size_t_cast h.SIGNUM]? = some (some H) ∧
      ∃ h1, w1.objects H = some h1 ∧ h1.SIGNUM = h.SIGNUM ∧
        h1.sigset_changed = h.sigset_changed := by
  cases hslot : w.sig_map[size_t_cast h.SIGNUM]? with
  | none => simp [establish, hobj, hslot] at hrun
  | some entry =>
    cases entry with
    | none =>
      rw [establish_empty errno hobj hslot] at hrun
      cases errno with
      | some e => simp at hrun
      | none =>
        simp only [Outcome.ok.injEq] at hrun
        subst hrun
        exact ⟨set_slot (some H) hslot,
          { h with old_signal_action := w.kernel.disposition h.SIGNUM }, if_pos rfl, rfl, rfl⟩
    | some entry =>
      by_cases hne : entry = H
      · subst hne
        rw [establish_self errno hobj hslot] at hrun
        by_cases hc : h.sigset_changed
        · cases errno with
          | some e => simp [hc] at hrun
          | none =>
            simp only [hc, if_true, Outcome.ok.injEq] at hrun
            subst hrun
            exact ⟨hslot, h, hobj, rfl, rfl⟩
        · simp only [hc, Bool.false_eq_true, if_false, Outcome.ok.injEq] at hrun
          subst hrun
          exact ⟨hslot, h, hobj, rfl, rfl⟩
      · cases hother : w.objects entry with
        | none => simp [establish_other_dangling errno hobj hslot hne hother] at hrun
        | some other =>
          rw [establish_other errno hobj hslot hne hother] at hrun
          cases errno with
          | some e => simp at hrun
          | none =>
            simp only [Outcome.ok.injEq] at hrun
            subst hrun
            exact ⟨set_slot (some H) hslot,
              { h with old_signal_action := other.old_signal_action }, if_pos rfl, rfl, rfl⟩

theorem size_t_cast_injective {a b : Int} (ha : is_int a) (hb : is_int b)
    (h : size_t_cast a = size_t_cast b) : a = b := by
  unfold is_int at ha hb
  unfold size_t_cast at h
  have h1 : (a % 2 ^ 64).toNat = ((b % 2 ^ 64).toNat : Int) := by exact_mod_cast h
  have ha0 : 0 ≤ a % 2 ^ 64 := Int.emod_nonneg a (by norm_num)
  have hb0 : 0 ≤ b % 2 ^ 64 := Int.emod_nonneg b (by norm_num)
  rw [Int.toNat_of_nonneg ha0, Int.toNat_of_nonneg hb0] at h1
  norm_num at h1
  omega

theorem same_elsewhere_refl (S : Int) (H : Nat) (w : World) : SameElsewhere S H w w :=
  ⟨fun _ _ => rfl, fun _ _ => rfl, fun _ _ => rfl⟩

theorem same_elsewhere_kernel (errno : Option Nat) (S : Int) (H : Nat) (act : sigaction_t)
    (w : World) :
    SameElsewhere S H w { w with kernel := (sigaction errno S act w.kernel).2.2 } := by
  refine ⟨fun _ _ => rfl, ?_, fun _ _ => rfl⟩
  intro T hT
  cases errno <;> simp [sigaction, hT]

theorem same_elsewhere_update (errno : Option Nat) (S : Int) (H : Nat) (act : sigaction_t)
    (v : Option Nat) (objects : Nat → Option SignalHandler) (w : World)
    (hobjects : ∀ G, G ≠ H → objects G = w.objects G) :
    SameElsewhere S H w
      { sig_map := w.sig_map.set (size_t_cast S) v, objects := objects,
        kernel := (sigaction errno S act w.kernel).2.2 } := by
  refine ⟨?_, ?_, hobjects⟩
  · intro i hi
    simp [List.getElem?_set, Ne.symm hi]
  · intro T hT
    cases errno <;> simp [sigaction, hT]

theorem establish_elsewhere {errno : Option Nat} {H : Nat} {h : SignalHandler} {w w1 : World}
    (hobj : w.objects H = some h) (hrun : (establish errno H w).state = some w1) :
    SameElsewhere h.SIGNUM H w w1 := by
  have hstore : ∀ x : SignalHandler, ∀ G, G ≠ H → w.store H x G = w.objects G := by
    intro x G hG
    simp [World.store, hG]
  cases hslot : w.sig_map[size_t_cast h.SIGNUM]? with
  | none => simp [establish, hobj, hslot, Outcome.state] at hrun
  | some entry =>
    cases entry with
    | none =>
      rw [establish_empty errno hobj hslot] at hrun
      cases errno with
      | some e =>
        simp only [Outcome.state, Option.some.injEq] at hrun
        subst hrun
        exact same_elsewhere_update (some e) _ _ _ _ _ w (fun _ _ => rfl)
      | none =>
        simp only [Outcome.state, Option.some.injEq] at hrun
        subst hrun
        exact same_elsewhere_update none _ _ _ _ _ w (hstore _)
    | some entry =>
      by_cases hne : entry = H
      · subst hne
        rw [establish_self errno hobj hslot] at hrun
        by_cases hc : h.sigset_changed
        · cases errno with
          | some e =>
            simp only [hc, if_true, Outcome.state, Option.some.injEq] at hrun
            subst hrun
            exact same_elsewhere_kernel (some e) _ _ _ w
          | none =>
            simp only [hc, if_true, Outcome.state, Option.some.injEq] at hrun
            subst hrun
            exact same_elsewhere_kernel none _ _ _ w
        · simp only [hc, Bool.false_eq_true, if_false, Outcome.state,
            Option.some.injEq] at hrun
          subst hrun
          exact same_elsewhere_refl _ _ w
      · cases hother : w.objects entry with
        | none =>
          simp [establish_other_dangling errno hobj hslot hne hother, Outcome.state] at hrun
        | some other =>
          rw [establish_other errno hobj hslot hne hother] at hrun
          cases errno with
          | some e =>
            simp only [Outcome.state, Option.some.injEq] at hrun
            subst hrun
            exact same_elsewhere_kernel (some e) _ _ _ w
          | none =>
            simp only [Outcome.state, Option.some.injEq] at hrun
            subst hrun
            exact same_elsewhere_update none _ _ _ _ _ w (hstore _)

theorem revoke_elsewhere {errno : Option Nat} {H : Nat} {h : SignalHandler} {w w1 : World}
    (hobj : w.objects H = some h) (hrun : (revoke errno H w).state = some w1) :
    SameElsewhere h.SIGNUM H w w1 := by
  cases hslot : w.sig_map[size_t_cast h.SIGNUM]? with
  | none => simp [revoke, hobj, hslot, Outcome.state] at hrun
  | some entry =>
    by_cases hne : entry = some H
    · subst hne
      rw [revoke_current errno hobj hslot] at hrun
      cases errno with
      | some e =>
        simp only [Outcome.state, Option.some.injEq] at hrun
        subst hrun
        exact same_elsewhere_kernel (some e) _ _ _ w
      | none =>
        simp only [Outcome.state, Option.some.injEq] at hrun
        subst hrun
        exact same_elsewhere_update none _ _ _ _ _ w (fun _ _ => rfl)
    · rw [revoke_not_current errno hobj hslot hne] at hrun
      simp only [Outcome.state, Option.some.injEq] at hrun
      subst hrun
      exact same_elsewhere_refl _ _ w

/-! ## The concrete states -/

theorem size_t_cast_ten : size_t_cast 10 = 10 := by decide

theorem establish_start : establish none 1 start = Outcome.ok started := by
  have h := @establish_empty start 1 (fresh 10) none rfl (by decide)
  simpa [started, fresh, start, size_t_cast_ten] using h

theorem revoke_started : revoke none 1 started = Outcome.ok restarted := by
  have h := @revoke_current started 1 { fresh 10 with old_signal_action := foreign_action }
    none rfl (by decide)
  simpa [restarted, fresh, size_t_cast_ten] using h

theorem chained_eq : establish_chain start [1, 2, 3] = some chained := rfl

theorem unchained_eq : revoke none 3 chained = Outcome.ok unchained := rfl

theorem handlers_start : HandlersFor 10 [1, 2, 3] start := by
  intro x hx
  simp only [List.mem_cons, List.mem_singleton, List.not_mem_nil, or_false] at hx
  rcases hx with rfl | rfl | rfl
  · exact ⟨fresh 10, rfl, rfl⟩
  · exact ⟨fresh 10, rfl, rfl⟩
  · exact ⟨fresh_ignore 10, rfl, rfl⟩

theorem ignoring_eq : establish none 3 started = Outcome.ok ignoring := rfl

/-! # The claims -/

/-! ## C1 -/

/-- C1 (supersession): when handler `A` is established for a signal and a different handler
`B` for the same signal establishes successfully, then afterwards `A.is_established()` is
false and `B.is_established()` is true; the only call made is `B.establish()`. -/
theorem supersession (errno : Option Nat) (A B : Nat) (a b : SignalHandler) (w w1 : World)
    (hA : w.objects A = some a) (hB : w.objects B = some b) (hS : a.SIGNUM = b.SIGNUM)
    (hAB : A ≠ B) (hest : is_established A w = some true)
    (hrun : establish errno B w = Outcome.ok w1) :
    is_established A w1 = some false ∧ is_established B w1 = some true := by
  obtain ⟨h1, h2, _⟩ := establish_superseded hA hB hS hAB hest hrun
  exact ⟨h1, h2⟩

/-- Instance of C1: handler 2 supersedes handler 1 for signal 10. -/
theorem supersession_witness :
    is_established 1 started = some true ∧
      ∃ w1, establish none 2 started = Outcome.ok w1 ∧
        is_established 1 w1 = some false ∧ is_established 2 w1 = some true := by
  have hest : is_established 1 started = some true := by decide
  have hobj1 : started.objects 1 = some { fresh 10 with old_signal_action := foreign_action } :=
    rfl
  have hobj2 : started.objects 2 = some (fresh 10) := rfl
  have hrun := @establish_other started 2 1 _ _ none hobj2 (by decide) (by decide) hobj1
  exact ⟨hest, _, hrun, supersession none 1 2 _ _ started _ hobj1 hobj2 rfl (by decide) hest hrun⟩

/-! ## C2 -/

/-- C2 (revoke-to-origin): the slot of signal `S` is empty and the kernel disposition of `S`
is `D`; the handlers of a non-empty `chain` (in particular two or more distinct ones), all
handlers for `S`, establish successfully one after another. Then a successful `revoke()` of
the last handler of the chain makes one kernel call, which installs `D` for `S`, and empties
the slot. -/
theorem revoke_to_origin (S : Int) (D : sigaction_t) (chain : List Nat) (last : Nat)
    (errno : Option Nat) (w w1 w2 : World)
    (hempty : w.sig_map[size_t_cast S]? = some none) (hD : w.kernel.disposition S = D)
    (hfor : HandlersFor S chain w) (hchain : establish_chain w chain = some w1)
    (hlast : chain.getLast? = some last) (hrev : revoke errno last w1 = Outcome.ok w2) :
    w2.kernel.disposition S = D ∧ w2.sig_map[size_t_cast S]? = some none ∧
      w2.kernel.calls = w1.kernel.calls ++ [(S, D)] := by
  cases chain with
  | nil => simp at hlast
  | cons first rest =>
    obtain ⟨o, ho, hoS⟩ := hfor first (List.mem_cons_self first rest)
    cases hstep : establish none first w with
    | throw e w3 => simp [establish_chain, hstep] at hchain
    | fault => simp [establish_chain, hstep] at hchain
    | ok w3 =>
      simp only [establish_chain, hstep] at hchain
      subst hoS
      have hheld3 : HeldWith o.SIGNUM D first w3 := hD ▸ establish_first ho hempty hstep
      have hfor3 : HandlersFor o.SIGNUM rest w3 :=
        establish_keeps_handlers hstep (fun y hy => hfor y (List.mem_cons_of_mem first hy))
      obtain ⟨hslot, l, hl, hlS, hlD⟩ :=
        establish_chain_held o.SIGNUM D rest w3 w1 first last hheld3 hfor3 hchain hlast
      rw [← hlS] at hslot
      rw [revoke_current errno hl hslot] at hrev
      cases errno with
      | some e => simp at hrev
      | none =>
        simp only [Outcome.ok.injEq] at hrev
        subst hrev
        refine ⟨?_, ?_, ?_⟩
        · simp [sigaction, hlS, hlD]
        · simpa [hlS] using set_slot none hslot
        · simp [sigaction, hlS, hlD]

/-- Instance of C2: handlers 1, 2 and 3 establish for signal 10 in turn, then handler 3
revokes: the function installed by the application is back, not the action of handler 1
or 2. -/
theorem revoke_to_origin_witness :
    start.sig_map[size_t_cast 10]? = some none ∧ HandlersFor 10 [1, 2, 3] start ∧
      establish_chain start [1, 2, 3] = some chained ∧
      revoke none 3 chained = Outcome.ok unchained ∧
      unchained.kernel.disposition 10 = foreign_action ∧
      unchained.sig_map[size_t_cast 10]? = some none ∧
      unchained.kernel.calls = chained.kernel.calls ++ [(10, foreign_action)] :=
  ⟨by decide, handlers_start, chained_eq, unchained_eq,
    revoke_to_origin 10 foreign_action [1, 2, 3] 3 none start chained unchained (by decide) rfl
      handlers_start chained_eq rfl unchained_eq⟩

/-! ## C3 -/

/-- C3 (establish/revoke round trip): starting from an empty slot for the signal of `H`, a
successful `H.establish()` followed by a successful `H.revoke()` leaves the kernel disposition
table and the registry as they were before the establish, so the slot is empty again and a
later delivery of the signal does what it did before. -/
theorem establish_revoke_round_trip (e1 e2 : Option Nat) (H : Nat) (h : SignalHandler)
    (w w1 w2 : World) (hobj : w.objects H = some h)
    (hempty : w.sig_map[size_t_cast h.SIGNUM]? = some none)
    (hest : establish e1 H w = Outcome.ok w1) (hrev : revoke e2 H w1 = Outcome.ok w2) :
    w2.kernel.disposition = w.kernel.disposition ∧ w2.sig_map = w.sig_map ∧
      w2.sig_map[size_t_cast h.SIGNUM]? = some none ∧
      deliver h.SIGNUM w2 = deliver h.SIGNUM w := by
  rw [establish_empty e1 hobj hempty] at hest
  cases e1 with
  | some e => simp at hest
  | none =>
    simp only [Outcome.ok.injEq] at hest
    subst hest
    have hobj1 : (World.store w H { h with old_signal_action := w.kernel.disposition h.SIGNUM }) H
        = some { h with old_signal_action := w.kernel.disposition h.SIGNUM } := by
      simp [World.store]
    have hslot1 := set_slot (some H) hempty
    rw [@revoke_current
      { sig_map := w.sig_map.set (size_t_cast h.SIGNUM) (some H),
        objects := w.store H { h with old_signal_action := w.kernel.disposition h.SIGNUM },
        kernel := (sigaction none h.SIGNUM h.current_signal_action w.kernel).2.2 }
      H { h with old_signal_action := w.kernel.disposition h.SIGNUM } e2 hobj1 hslot1] at hrev
    cases e2 with
    | some e => simp at hrev
    | none =>
      simp only [Outcome.ok.injEq] at hrev
      subst hrev
      have hdisp : (sigaction none h.SIGNUM (w.kernel.disposition h.SIGNUM)
          (sigaction none h.SIGNUM h.current_signal_action w.kernel).2.2).2.2.disposition
          = w.kernel.disposition := by
        funext s
        by_cases hs : s = h.SIGNUM <;> simp [sigaction, hs]
      have hmap : (w.sig_map.set (size_t_cast h.SIGNUM) (some H)).set (size_t_cast h.SIGNUM) none
          = w.sig_map := set_slot_back (some H) hempty
      refine ⟨hdisp, hmap, ?_, ?_⟩
      · simpa [hmap] using hempty
      · simp only [deliver, hdisp]
        rw [@signal_handler_null ⟨_, _, _⟩ h.SIGNUM (by simpa [hmap] using hempty),
          signal_handler_null hempty]

/-- Instance of C3: handler 1 establishes for signal 10 and revokes again; the function the
application had installed is back. -/
theorem establish_revoke_round_trip_witness :
    start.sig_map[size_t_cast (fresh 10).SIGNUM]? = some none ∧
      establish none 1 start = Outcome.ok started ∧
      revoke none 1 started = Outcome.ok restarted ∧
      restarted.kernel.disposition = start.kernel.disposition ∧
      restarted.sig_map = start.sig_map ∧
      restarted.sig_map[size_t_cast (fresh 10).SIGNUM]? = some none ∧
      deliver (fresh 10).SIGNUM restarted = deliver (fresh 10).SIGNUM start :=
  ⟨by decide, establish_start, revoke_started,
    establish_revoke_round_trip none none 1 (fresh 10) start started restarted rfl (by decide)
      establish_start revoke_started⟩

/-! ## C4 -/

/-- C4 (failing input): handler 4, a handler for signal 9, establishes on an empty slot and
the kernel refuses the call with error 22. `establish()` throws the system error, and the
slot of signal 9 now references handler 4: `is_established()` was false before the call and
is true after it, while the kernel disposition of signal 9 is what it was. -/
theorem establish_failure_commits_slot :
    is_established 4 start = some false ∧
      (establish (some 22) 4 start).exception = some (Error.system_error 22) ∧
      (establish (some 22) 4 start).state.bind (is_established 4) = some true ∧
      (establish (some 22) 4 start).state.map (fun w => w.sig_map[9]?) = some (some (some 4)) ∧
      (establish (some 22) 4 start).state.map (fun w => w.kernel.disposition 9)
        = some (start.kernel.disposition 9) := by
  refine ⟨by decide, by decide, by decide, by decide, by decide⟩

/-! ## C5 -/

/-- C5 (revoke failure keeps registration): when `H` is established and the kernel call that
reinstalls the previous action fails with `e`, `H.revoke()` throws a system error carrying
`e`, the registry is untouched and `H.is_established()` is still true. -/
theorem revoke_failure_keeps_registration (e : Nat) (H : Nat) (w : World)
    (hest : is_established H w = some true) :
    ∃ w1, revoke (some e) H w = Outcome.throw (Error.system_error e) w1 ∧
      w1.sig_map = w.sig_map ∧ is_established H w1 = some true := by
  obtain ⟨h, hobj⟩ := is_established_live hest
  have hslot := is_established_true hobj hest
  refine ⟨_, revoke_current (some e) hobj hslot, rfl, ?_⟩
  simp [is_established, hobj, hslot]

/-- Instance of C5: the kernel refuses the restore for the established handler 1. -/
theorem revoke_failure_keeps_registration_witness :
    is_established 1 started = some true ∧
      ∃ w1, revoke (some 22) 1 started = Outcome.throw (Error.system_error 22) w1 ∧
        w1.sig_map = started.sig_map ∧ is_established 1 w1 = some true :=
  ⟨by decide, revoke_failure_keeps_registration 22 1 started (by decide)⟩

/-! ## C6 -/

/-- C6 (revoke of a non-established handler): when the slot of the signal of `H` does not
reference `H` (it is empty or references another handler), `H.revoke()` returns normally
whatever the kernel would answer, and the whole state (registry, kernel disposition table,
log of kernel calls, every handler object) is unchanged. -/
theorem revoke_not_established_noop (errno : Option Nat) (H : Nat) (w : World)
    (hne : is_established H w = some false) : revoke errno H w = Outcome.ok w := by
  obtain ⟨h, hobj⟩ := is_established_live hne
  obtain ⟨entry, hslot, hentry⟩ := is_established_false hobj hne
  exact revoke_not_current errno hobj hslot hentry

/-- Instance of C6: handler 2 is not established while handler 1 is; its revoke does nothing. -/
theorem revoke_not_established_noop_witness :
    is_established 2 started = some false ∧ revoke (some 22) 2 started = Outcome.ok started :=
  ⟨by decide, revoke_not_established_noop (some 22) 2 started (by decide)⟩

/-! ## C7 -/

/-- C7 (dispatch correctness): handler `H` has the trampoline as the entry of its current
action and becomes established for its signal by a successful `establish()`. Then the kernel
disposition of the signal is the action of `H`, and each delivery of the signal runs the
trampoline, which calls the `handler` of `H` once with that signal number and calls nothing
else; `n` deliveries make exactly `n` such calls. -/
theorem dispatch_correctness (errno : Option Nat) (H : Nat) (h : SignalHandler) (w w1 : World)
    (hobj : w.objects H = some h)
    (htramp : h.current_signal_action.sa_handler = Entry.signal_handler)
    (hnot : is_established H w = some false) (hrun : establish errno H w = Outcome.ok w1)
    (n : Nat) :
    is_established H w1 = some true ∧
      w1.kernel.disposition h.SIGNUM = h.current_signal_action ∧
      deliver h.SIGNUM w1 = signal_handler h.SIGNUM w1 ∧
      signal_handler h.SIGNUM w1 = some [Event.handler H h.SIGNUM] ∧
      deliveries n h.SIGNUM w1 = some (List.replicate n (Event.handler H h.SIGNUM)) := by
  obtain ⟨hslot, ⟨h1, hlive⟩, hdisp⟩ := establish_installs hobj hnot hrun
  obtain ⟨o1, ho1, hS1⟩ := establish_keeps_objects hrun H h hobj
  have hcall : signal_handler h.SIGNUM w1 = some [Event.handler H h.SIGNUM] := by
    simp [signal_handler, hslot, hlive]
  have hdel : deliver h.SIGNUM w1 = signal_handler h.SIGNUM w1 := by
    simp [deliver, hdisp, htramp]
  refine ⟨?_, hdisp, hdel, hcall, deliveries_replicate (hdel.trans hcall) n⟩
  simp [is_established, ho1, hS1, hslot]

/-- Instance of C7: handler 1 establishes for signal 10, which is then raised twice. -/
theorem dispatch_correctness_witness :
    is_established 1 start = some false ∧ establish none 1 start = Outcome.ok started ∧
      is_established 1 started = some true ∧
      started.kernel.disposition (fresh 10).SIGNUM = (fresh 10).current_signal_action ∧
      deliver (fresh 10).SIGNUM started = signal_handler (fresh 10).SIGNUM started ∧
      signal_handler (fresh 10).SIGNUM started = some [Event.handler 1 (fresh 10).SIGNUM] ∧
      deliveries 2 (fresh 10).SIGNUM started
        = some (List.replicate 2 (Event.handler 1 (fresh 10).SIGNUM)) :=
  ⟨by decide, establish_start,
    dispatch_correctness none 1 (fresh 10) start started rfl rfl (by decide) establish_start 2⟩

/-! ## C8 -/

/-- C8 (ignore supersedes dispatch): handler `H` is established for signal `U`, and a
different handler `I` for `U` whose current action has the entry of `actions._ignore` (an
`Ignore` object) establishes successfully. Then the kernel disposition of `U` is the action
of `I`, with entry `SIG_IGN`; any number of deliveries of `U` call no handler at all;
`H.is_established()` is false and `I.is_established()` is true. -/
theorem ignore_supersedes_dispatch (errno : Option Nat) (H I : Nat) (h i : SignalHandler)
    (w w1 : World) (hH : w.objects H = some h) (hI : w.objects I = some i)
    (hS : h.SIGNUM = i.SIGNUM) (hHI : H ≠ I)
    (hign : i.current_signal_action.sa_handler = actions._ignore.sa_handler)
    (hest : is_established H w = some true) (hrun : establish errno I w = Outcome.ok w1)
    (n : Nat) :
    w1.kernel.disposition h.SIGNUM = i.current_signal_action ∧
      (w1.kernel.disposition h.SIGNUM).sa_handler = Entry.SIG_IGN ∧
      deliveries n h.SIGNUM w1 = some [] ∧
      is_established H w1 = some false ∧ is_established I w1 = some true := by
  obtain ⟨h1, h2, hdisp⟩ := establish_superseded hH hI hS hHI hest hrun
  rw [← hS] at hdisp
  have hentry : (w1.kernel.disposition h.SIGNUM).sa_handler = Entry.SIG_IGN := by
    rw [hdisp, hign]
    rfl
  have hdel : deliver h.SIGNUM w1 = some [] := by simp [deliver, hentry]
  exact ⟨hdisp, hentry, deliveries_nothing hdel n, h1, h2⟩

/-- Instance of C8: with handler 1 established for signal 10, the `Ignore` handler 3
establishes; three deliveries of signal 10 call nothing. -/
theorem ignore_supersedes_dispatch_witness :
    Ignore linux none 10 = Except.ok (fresh_ignore 10) ∧
      is_established 1 started = some true ∧
      establish none 3 started = Outcome.ok ignoring ∧
      ignoring.kernel.disposition 10 = actions._ignore ∧
      (ignoring.kernel.disposition 10).sa_handler = Entry.SIG_IGN ∧
      deliveries 3 10 ignoring = some [] ∧
      is_established 1 ignoring = some false ∧ is_established 3 ignoring = some true :=
  ⟨rfl, by decide, ignoring_eq,
    ignore_supersedes_dispatch none 1 3 { fresh 10 with old_signal_action := foreign_action }
      (fresh_ignore 10) started ignoring rfl rfl rfl (by decide) rfl (by decide) ignoring_eq 3⟩

/-! ## C9 -/

/-- C9 (failing input): handler 1 is established for signal 10. After `block_signal(12)`
its current action blocks signal 12, but the flag `sigset_changed` is still false, so the
`establish()` that follows returns without a kernel call and the installed disposition of
signal 10 does not block signal 12: it differs from the current action of the handler.
Likewise, a handler established while blocking 12 still has 12 blocked in the kernel after
`unblock_signal(12)` and `establish()`. -/
theorem block_signal_not_applied :
    is_established 1 started = some true ∧
      block_signal linux none 12 1 started = Outcome.ok blocked ∧
      establish none 1 blocked = Outcome.ok reestablished ∧
      (blocked.objects 1).map
          (fun h => decide ((12 : Int) ∈ h.current_signal_action.sa_mask)) = some true ∧
      (blocked.objects 1).map (fun h => h.sigset_changed) = some false ∧
      (12 : Int) ∉ (reestablished.kernel.disposition 10).sa_mask ∧
      (reestablished.objects 1).map
          (fun h => decide (reestablished.kernel.disposition 10 = h.current_signal_action))
        = some false ∧
      reestablished.kernel.calls = started.kernel.calls ∧
      is_established 1 started_blocking = some true ∧
      (12 : Int) ∈ (started_blocking.kernel.disposition 10).sa_mask ∧
      (reestablished_unblocked.objects 1).map
          (fun h => decide ((12 : Int) ∈ h.current_signal_action.sa_mask)) = some false ∧
      (12 : Int) ∈ (reestablished_unblocked.kernel.disposition 10).sa_mask := by
  refine ⟨by decide, rfl, rfl, by decide, by decide, by decide, by decide, by decide,
    by decide, by decide, by decide, by decide⟩

/-! ## C10 -/

/-- C10 (mask latency): for every live handler `H`, every signal number `n` (valid or not)
and every answer of the C library, `H.block_signal(n)` and `H.unblock_signal(n)` end (by
return or exception) in a state with the same registry, the same kernel disposition table
and no further kernel call, in which all handler objects are as before except that the
blocked-signal set of the current action of `H` may differ. -/
theorem mask_latency (p : Platform) (e1 e2 : Option Nat) (n : Int) (H : Nat)
    (h : SignalHandler) (w : World) (hobj : w.objects H = some h) :
    OnlyMaskChanged H h w (block_signal p e1 n H w) ∧
      OnlyMaskChanged H h w (unblock_signal p e2 n H w) := by
  constructor
  · by_cases hr : n > p.SIGRTMAX ∨ n ≤ 0
    · exact ⟨w, h.current_signal_action.sa_mask,
        by simp [block_signal, hobj, hr, Outcome.state], rfl, rfl, rfl, store_same hobj⟩
    · cases e1 with
      | none =>
        exact ⟨{ w with objects := w.store H (with_mask h (insert n h.current_signal_action.sa_mask)) },
          insert n h.current_signal_action.sa_mask,
          by simp [block_signal, hobj, hr, sigaddset, Outcome.state, with_mask],
          rfl, rfl, rfl, rfl⟩
      | some e =>
        exact ⟨{ w with objects := w.store H (with_mask h h.current_signal_action.sa_mask) },
          h.current_signal_action.sa_mask,
          by simp [block_signal, hobj, hr, sigaddset, Outcome.state, with_mask],
          rfl, rfl, rfl, rfl⟩
  · by_cases hr : n > p.SIGRTMAX ∨ n ≤ 0
    · exact ⟨w, h.current_signal_action.sa_mask,
        by simp [unblock_signal, hobj, hr, Outcome.state], rfl, rfl, rfl, store_same hobj⟩
    · cases e2 with
      | none =>
        exact ⟨{ w with objects := w.store H (with_mask h (h.current_signal_action.sa_mask.erase n)) },
          h.current_signal_action.sa_mask.erase n,
          by simp [unblock_signal, hobj, hr, sigdelset, Outcome.state, with_mask],
          rfl, rfl, rfl, rfl⟩
      | some e =>
        exact ⟨{ w with objects := w.store H (with_mask h h.current_signal_action.sa_mask) },
          h.current_signal_action.sa_mask,
          by simp [unblock_signal, hobj, hr, sigdelset, Outcome.state, with_mask],
          rfl, rfl, rfl, rfl⟩

/-- Instance of C10: `block_signal(12)` and `unblock_signal(12)` on the established
handler 1. -/
theorem mask_latency_witness :
    started.objects 1 = some { fresh 10 with old_signal_action := foreign_action } ∧
      OnlyMaskChanged 1 { fresh 10 with old_signal_action := foreign_action } started
        (block_signal linux none 12 1 started) ∧
      OnlyMaskChanged 1 { fresh 10 with old_signal_action := foreign_action } started
        (unblock_signal linux none 12 1 started) :=
  ⟨rfl, mask_latency linux none none 12 1 _ started rfl⟩

/-! ## C11 -/

/-- C11 (constructor range validation): for every integer `signal_number`, construction
fails with the invalid-argument error (`std::runtime_error`) if and only if
`signal_number < 1` or `signal_number > SIGRTMAX`, whatever `sigemptyset` would answer.
With `sigemptyset` reporting no error, as it does on the object's own member, construction
succeeds with `SIGNUM = signal_number` exactly for `signal_number` in `1..=SIGRTMAX`. -/
theorem constructor_range_validation (p : Platform) (errno : Option Nat) (signal_number : Int)
    (restart : Bool) :
    (SignalHandler.SignalHandler p errno signal_number restart
        = Except.error Error.runtime_error ↔
      (signal_number < 1 ∨ signal_number > p.SIGRTMAX)) ∧
    ((∃ h, SignalHandler.SignalHandler p none signal_number restart = Except.ok h ∧
        h.SIGNUM = signal_number) ↔
      (1 ≤ signal_number ∧ signal_number ≤ p.SIGRTMAX)) := by
  constructor
  · constructor
    · intro hrun
      by_contra hin
      have hr : ¬(signal_number > p.SIGRTMAX ∨ signal_number ≤ 0) := by omega
      cases errno <;> simp [SignalHandler.SignalHandler, hr] at hrun
    · intro hout
      have hr : signal_number > p.SIGRTMAX ∨ signal_number ≤ 0 := by omega
      simp [SignalHandler.SignalHandler, hr]
  · constructor
    · rintro ⟨h, hrun, _⟩
      by_contra hout
      have hr : signal_number > p.SIGRTMAX ∨ signal_number ≤ 0 := by omega
      simp [SignalHandler.SignalHandler, hr] at hrun
    · intro hin
      have hr : ¬(signal_number > p.SIGRTMAX ∨ signal_number ≤ 0) := by omega
      exact ⟨_, by simp [SignalHandler.SignalHandler, hr]; rfl, rfl⟩

/-- Instance of C11: signal numbers 0, 65 and -3 are refused with the invalid-argument error,
1 and 64 are accepted. -/
theorem constructor_range_validation_witness :
    SignalHandler.SignalHandler linux none 0 true = Except.error Error.runtime_error ∧
      SignalHandler.SignalHandler linux none 65 true = Except.error Error.runtime_error ∧
      SignalHandler.SignalHandler linux none (-3) false = Except.error Error.runtime_error ∧
      (∃ h, SignalHandler.SignalHandler linux none 1 false = Except.ok h ∧ h.SIGNUM = 1) ∧
      ∃ h, SignalHandler.SignalHandler linux none 64 true = Except.ok h ∧ h.SIGNUM = 64 :=
  ⟨(constructor_range_validation linux none 0 true).1.2 (Or.inl (by decide)),
    (constructor_range_validation linux none 65 true).1.2 (Or.inr (by decide)),
    (constructor_range_validation linux none (-3) false).1.2 (Or.inl (by decide)),
    (constructor_range_validation linux none 1 false).2.2 ⟨by decide, by decide⟩,
    (constructor_range_validation linux none 64 true).2.2 ⟨by decide, by decide⟩⟩

/-! ## C12 -/

/-- C12 (destruction revokes unless disabled): for a live handler `H`, the destructor ends
as `H.revoke()` does and leaves the same registry and the same kernel side (disposition
table and calls made) when `revoke_on_destruction` is true, and returns with the registry
and the kernel side unchanged when it is false. `no_revoke()` returns and changes neither
registry nor kernel side, and the destructor that follows returns, makes no kernel call and
leaves registry and disposition table as they were before `no_revoke()`. An established `H`
with the flag true whose restore call succeeds is unregistered by its destructor, its saved
previous action is the disposition of its signal again, and the object is gone. -/
theorem destruction_revokes_unless_disabled (errno : Option Nat) (H : Nat) (h : SignalHandler)
    (w : World) (hobj : w.objects H = some h) :
    (destructor errno H w).effect
        = (if h.revoke_on_destruction then (revoke errno H w).effect
          else some (none, w.sig_map, w.kernel)) ∧
      (∃ w1 w2, no_revoke true H w = Outcome.ok w1 ∧
        w1.sig_map = w.sig_map ∧ w1.kernel.disposition = w.kernel.disposition ∧
        w1.kernel.calls = w.kernel.calls ∧
        destructor errno H w1 = Outcome.ok w2 ∧
        w2.sig_map = w.sig_map ∧ w2.kernel.disposition = w.kernel.disposition ∧
        w2.kernel.calls = w.kernel.calls ∧ w2.objects H = none) ∧
      (h.revoke_on_destruction = true → is_established H w = some true →
        ∃ w1, destructor none H w = Outcome.ok w1 ∧
          w1.sig_map[size_t_cast h.SIGNUM]? = some none ∧
          w1.kernel.disposition h.SIGNUM = h.old_signal_action ∧ w1.objects H = none) := by
  refine ⟨?_, ?_, ?_⟩
  · by_cases hflag : h.revoke_on_destruction
    · cases hr : revoke errno H w <;> simp [destructor, hobj, hflag, hr, Outcome.effect]
    · simp [destructor, hobj, hflag, Outcome.effect]
  · refine ⟨{ w with objects := w.store H { h with revoke_on_destruction := !true } },
      { w with
        objects :=
          World.free { w with objects := w.store H { h with revoke_on_destruction := !true } }
            H },
      by simp [no_revoke, hobj], rfl, rfl, rfl, by simp [destructor, World.store],
      rfl, rfl, rfl, by simp [World.free]⟩
  · intro hflag hest
    have hslot := is_established_true hobj hest
    have hr := revoke_current none hobj hslot
    simp only at hr
    refine ⟨_, by simp only [destructor, hobj, hflag, hr, if_true]; rfl, ?_, ?_, ?_⟩
    · exact set_slot none hslot
    · simp [sigaction]
    · simp [World.free]

/-- Instance of C12: the established handler 1 is destroyed. With the flag as constructed
its destructor does what `revoke()` does: slot 10 is empty and the function of the
application is the disposition of signal 10 again. After `no_revoke()` the destructor
leaves slot and disposition alone. -/
theorem destruction_revokes_unless_disabled_witness :
    is_established 1 started = some true ∧
      (destructor none 1 started).effect = (revoke none 1 started).effect ∧
      (∃ w1 w2, no_revoke true 1 started = Outcome.ok w1 ∧
        w1.sig_map = started.sig_map ∧
        w1.kernel.disposition = started.kernel.disposition ∧
        w1.kernel.calls = started.kernel.calls ∧
        destructor none 1 w1 = Outcome.ok w2 ∧
        w2.sig_map = started.sig_map ∧
        w2.kernel.disposition = started.kernel.disposition ∧
        w2.kernel.calls = started.kernel.calls ∧ w2.objects 1 = none) ∧
      (∃ w1, destructor none 1 started = Outcome.ok w1 ∧
        w1.sig_map[size_t_cast 10]? = some none ∧
        w1.kernel.disposition 10 = foreign_action ∧ w1.objects 1 = none) :=
  ⟨by decide,
    (destruction_revokes_unless_disabled none 1
      { fresh 10 with old_signal_action := foreign_action } started rfl).1,
    (destruction_revokes_unless_disabled none 1
      { fresh 10 with old_signal_action := foreign_action } started rfl).2.1,
    (destruction_revokes_unless_disabled none 1
      { fresh 10 with old_signal_action := foreign_action } started rfl).2.2 rfl (by decide)⟩

/-! ## C13 -/

/-- C13 (failing input): handler 4 (signal 9) is registered although the kernel refused its
`establish()`; the kernel refuses the restore call of its destructor as well. The system
error of `revoke()` leaves the destructor: the destruction does not return. The same holds
for the established handler 1 when its restore call fails. -/
theorem destructor_raises :
    (establish (some 22) 4 start).state = some refused ∧
      is_established 4 refused = some true ∧
      (refused.objects 4).map (fun h => h.revoke_on_destruction) = some true ∧
      (destructor (some 22) 4 refused).exception = some (Error.system_error 22) ∧
      (destructor (some 22) 4 refused).returns = false ∧
      (destructor (some 22) 1 started).exception = some (Error.system_error 22) ∧
      (destructor (some 22) 1 started).returns = false := by
  refine ⟨rfl, by decide, by decide, by decide, by decide, by decide, by decide⟩

/-! ## C14 -/

/-- C14 (failing input): the slot of signal 10 is empty, in the initial state and after an
establish/revoke round trip. Called with 10, the trampoline calls `handler` through the null
pointer it read: undefined behaviour instead of a normal return. With the trampoline action
installed for signal 10 (state `stale`), a delivery of the signal ends the same way. -/
theorem trampoline_empty_slot_faults :
    start.sig_map[size_t_cast 10]? = some none ∧ signal_handler 10 start = none ∧
      stale.sig_map[size_t_cast 10]? = some none ∧ signal_handler 10 stale = none ∧
      (stale.kernel.disposition 10).sa_handler = Entry.signal_handler ∧
      deliver 10 stale = none := by
  refine ⟨by decide, by decide, by decide, by decide, by decide, by decide⟩

/-! ## C15 -/

/-- C15 (mutual exclusion): in every state, reachable or not, when a handler `A` for a signal
reports `is_established() == true`, every other live handler `B` for the same signal reports
false; so at most one handler object per signal reports true. -/
theorem mutual_exclusion (A B : Nat) (a b : SignalHandler) (w : World)
    (hA : w.objects A = some a) (hB : w.objects B = some b) (hS : a.SIGNUM = b.SIGNUM)
    (hAB : A ≠ B) (hest : is_established A w = some true) :
    is_established B w = some false := by
  have hslot := is_established_true hA hest
  rw [hS] at hslot
  simp [is_established, hB, hslot, hAB]

/-- Instance of C15: after handlers 1, 2 and 3 established for signal 10 in turn, handler 3
is established and handler 1 is not. -/
theorem mutual_exclusion_witness :
    is_established 3 chained = some true ∧ is_established 1 chained = some false :=
  ⟨by decide,
    mutual_exclusion 3 1 { fresh_ignore 10 with old_signal_action := foreign_action }
      { fresh 10 with old_signal_action := foreign_action } chained
      rfl rfl rfl (by decide) (by decide)⟩

/-! ## C16 -/

/-- C16 (wait result): for a live handler `H` whose slot can be read, `H.wait(t)` returns
true exactly when no system call fails and an instance of the signal is consumed, and then
`handler` of `H` is called once if `H` is established at that moment and not at all
otherwise; it returns false exactly when no system call fails, the timeout is not zero and
elapses without a delivery, and then no `handler` is called. -/
theorem wait_result (timeout : timespec) (os : Waiting) (H : Nat) (h : SignalHandler)
    (b : Bool) (w : World) (hobj : w.objects H = some h)
    (hest : is_established H w = some b) :
    (∀ calls, wait timeout os H w = Waited.returns true calls ↔
        (os.block = none ∧ os.consume = none ∧ os.restore = none ∧ os.arrives = true ∧
          calls = if b then [Event.handler H h.SIGNUM] else [])) ∧
      (∀ calls, wait timeout os H w = Waited.returns false calls ↔
        (os.block = none ∧ os.consume = none ∧ os.restore = none ∧ os.arrives = false ∧
          timeout ≠ { tv_sec := 0, tv_nsec := 0 } ∧ calls = [])) := by
  rcases os with ⟨block, consume, arrives, restore⟩
  constructor <;> intro calls <;> cases block <;> cases consume <;> cases arrives <;>
    cases restore <;> cases b <;>
    by_cases ht : timeout = { tv_sec := 0, tv_nsec := 0 } <;>
    simp [wait, hobj, hest, ht, eq_comm]

/-- Instance of C16: the established handler 1 waits one second for signal 10, which does
not arrive, and waits again until it arrives. -/
theorem wait_result_witness :
    wait { tv_sec := 1, tv_nsec := 0 }
        { block := none, consume := none, arrives := false, restore := none } 1 started
        = Waited.returns false [] ∧
      wait { tv_sec := 0, tv_nsec := 0 }
        { block := none, consume := none, arrives := true, restore := none } 1 started
        = Waited.returns true [Event.handler 1 10] :=
  ⟨((wait_result { tv_sec := 1, tv_nsec := 0 }
        { block := none, consume := none, arrives := false, restore := none } 1
        { fresh 10 with old_signal_action := foreign_action } true started rfl
        (by decide)).2 []).2 ⟨rfl, rfl, rfl, rfl, by decide, rfl⟩,
    ((wait_result { tv_sec := 0, tv_nsec := 0 }
        { block := none, consume := none, arrives := true, restore := none } 1
        { fresh 10 with old_signal_action := foreign_action } true started rfl
        (by decide)).1 [Event.handler 1 10]).2 ⟨rfl, rfl, rfl, rfl, rfl⟩⟩

/-! ## C17 -/

/-- C17 (establish is idempotent): `H` is a live handler whose flag `sigset_changed` is
false. If `H` is established, `H.establish()` returns normally whatever the kernel would
answer and leaves the whole state (registry, kernel disposition table, calls made, every
object and so the saved previous action) unchanged. Hence a second `establish()` right
after a successful one changes nothing, and a successful `revoke()` after them installs the
previous action saved by the first one, not the action of `H`. -/
theorem establish_idempotent (e1 e2 : Option Nat) (H : Nat) (h : SignalHandler) (w : World)
    (hobj : w.objects H = some h) (hclean : h.sigset_changed = false) :
    (is_established H w = some true → establish e1 H w = Outcome.ok w) ∧
      (∀ w1, establish e1 H w = Outcome.ok w1 → establish e2 H w1 = Outcome.ok w1) ∧
      (∀ w1 w2 w3 h1, establish e1 H w = Outcome.ok w1 → w1.objects H = some h1 →
        establish e2 H w1 = Outcome.ok w2 → revoke none H w2 = Outcome.ok w3 →
        w3.kernel.disposition h.SIGNUM = h1.old_signal_action ∧
          w3.sig_map[size_t_cast h.SIGNUM]? = some none) := by
  have hsecond : ∀ w1, establish e1 H w = Outcome.ok w1 →
      establish e2 H w1 = Outcome.ok w1 := by
    intro w1 hrun
    obtain ⟨hslot1, h1, hobj1, hS1, hc1⟩ := establish_result hobj hrun
    rw [← hS1] at hslot1
    rw [establish_self e2 hobj1 hslot1]
    simp [hc1, hclean]
  refine ⟨?_, hsecond, ?_⟩
  · intro hest
    rw [establish_self e1 hobj (is_established_true hobj hest)]
    simp [hclean]
  · intro w1 w2 w3 h1 hrun hobj1 hrun2 hrev
    rw [hsecond w1 hrun] at hrun2
    simp only [Outcome.ok.injEq] at hrun2
    subst hrun2
    obtain ⟨hslot1, h1b, hobj1b, hS1, _⟩ := establish_result hobj hrun
    rw [hobj1] at hobj1b
    cases hobj1b
    rw [← hS1] at hslot1
    rw [revoke_current none hobj1 hslot1] at hrev
    simp only [Outcome.ok.injEq] at hrev
    subst hrev
    refine ⟨by simp [sigaction, hS1], ?_⟩
    simpa [hS1] using set_slot none hslot1

/-- Instance of C17: the established handler 1 establishes again, then revokes: the function
of the application is the disposition of signal 10 again. -/
theorem establish_idempotent_witness :
    is_established 1 started = some true ∧ establish (some 22) 1 started = Outcome.ok started ∧
      establish none 1 start = Outcome.ok started ∧
      revoke none 1 started = Outcome.ok restarted ∧
      restarted.kernel.disposition 10 = foreign_action ∧
      restarted.sig_map[size_t_cast 10]? = some none :=
  ⟨by decide,
    (establish_idempotent (some 22) none 1 { fresh 10 with old_signal_action := foreign_action }
      started rfl rfl).1 (by decide),
    establish_start, revoke_started,
    (establish_idempotent none (some 22) 1 (fresh 10) start rfl rfl).2.2 started started
      restarted { fresh 10 with old_signal_action := foreign_action } establish_start rfl
      ((establish_idempotent (some 22) none 1
        { fresh 10 with old_signal_action := foreign_action } started rfl rfl).1 (by decide))
      revoke_started⟩

/-! ## C18 -/

/-- C19 (per-signal isolation): `H` is a live handler for signal `S` and `T` is a signal
number different from `S`. Whether `H.establish()` or `H.revoke()` returns or throws, the
state it leaves has the same registry slot and the same kernel disposition for `T`, and
every handler for `T` that was established still is. -/
theorem per_signal_isolation (errno : Option Nat) (H : Nat) (h : SignalHandler) (T : Int)
    (w w1 : World) (hobj : w.objects H = some h) (hS : is_int h.SIGNUM) (hT : is_int T)
    (hne : T ≠ h.SIGNUM)
    (hrun : (establish errno H w).state = some w1 ∨ (revoke errno H w).state = some w1) :
    w1.sig_map[size_t_cast T]? = w.sig_map[size_t_cast T]? ∧
      w1.kernel.disposition T = w.kernel.disposition T ∧
      (∀ G g, w.objects G = some g → g.SIGNUM = T → is_established G w = some true →
        is_established G w1 = some true) := by
  have hsame : SameElsewhere h.SIGNUM H w w1 := by
    rcases hrun with hrun | hrun
    · exact establish_elsewhere hobj hrun
    · exact revoke_elsewhere hobj hrun
  obtain ⟨hmap, hdisp, hobjs⟩ := hsame
  have hidx : size_t_cast T ≠ size_t_cast h.SIGNUM :=
    fun hc => hne (size_t_cast_injective hT hS hc)
  refine ⟨hmap _ hidx, hdisp T hne, ?_⟩
  intro G g hG hgT hest
  have hGH : G ≠ H := by
    intro hc
    subst hc
    rw [hobj] at hG
    cases hG
    exact hne hgT.symm
  have hslot := is_established_true hG hest
  have hG1 : w1.objects G = some g := by rw [hobjs G hGH, hG]
  have hslot1 : w1.sig_map[size_t_cast g.SIGNUM]? = some (some G) := by
    rw [hgT] at hslot ⊢
    rw [hmap _ hidx, hslot]
  simp [is_established, hG1, hslot1]

/-- Instance of C19: handlers 1 (signal 10) and 5 (signal 12) are established; handler 1
revokes and handler 5 stays established. -/
theorem per_signal_isolation_witness :
    is_established 5 started_both = some true ∧
      (revoke none 1 started_both).state = some kept ∧
      kept.sig_map[size_t_cast 12]? = started_both.sig_map[size_t_cast 12]? ∧
      kept.kernel.disposition 12 = started_both.kernel.disposition 12 ∧
      is_established 5 kept = some true := by
  have h := per_signal_isolation none 1 { fresh 10 with old_signal_action := foreign_action }
    12 started_both kept rfl ⟨by decide, by decide⟩ ⟨by decide, by decide⟩ (by decide)
    (Or.inr rfl)
  exact ⟨by decide, rfl, h.1, h.2.1,
    h.2.2 5 { fresh 12 with old_signal_action := sigaction_zero } rfl rfl (by decide)⟩

/-! ## C20 -/

/-- C20 (failing input): the constructor accepts signal number 64 = `SIGRTMAX`, and the
registry built by `SignalMapper` has length 64, so its last index is 63. For the handler for
signal 64 (address 6) the slot index 64 lies outside the table: `establish`, `revoke`,
`is_established` and the trampoline all read beyond the end of the vector. -/
theorem registry_index_out_of_bounds :
    SignalHandler.SignalHandler linux none 64 true = Except.ok (fresh 64) ∧
      (SignalMapper linux).length = 64 ∧ start_rtmax.sig_map = SignalMapper linux ∧
      start_rtmax.objects 6 = some (fresh 64) ∧
      size_t_cast (fresh 64).SIGNUM = 64 ∧
      start_rtmax.sig_map[size_t_cast (fresh 64).SIGNUM]? = none ∧
      (establish none 6 start_rtmax).state = none ∧
      (revoke none 6 start_rtmax).state = none ∧
      is_established 6 start_rtmax = none ∧
      signal_handler 64 start_rtmax = none := by
  refine ⟨rfl, by decide, rfl, rfl, by decide, by decide, rfl, rfl, by decide, by decide⟩

end cxxsignal
